import Mathlib

/-!
Shallow embedding of the borrowing-transaction core of the library-manager
repository: the data model of `src/shared/schema.ts`, the storage layer of
`src/server/storage.ts`, and the HTTP route handlers of the routes file
(`src/unnamed/part_002`), restricted to the operations the verified claims
need (borrow, return, overdue listing).

Timestamps are modelled as integers; record identifiers as strings.  Integer
columns (`totalCopies`, `availableCopies`) are modelled as `Int` so that a
decrement below zero is representable rather than clamped.
-/

namespace LibraryManager

/-- A row of the `books` table (src/shared/schema.ts, `books`).
Display-only columns irrelevant to the core (`createdAt`) are omitted. -/
structure Book where
  id : String
  title : String
  author : String
  isbn : String
  category : String
  status : String
  totalCopies : Int
  availableCopies : Int
  schoolId : Option String
deriving DecidableEq

/-- A row of the `borrow_transactions` table (src/shared/schema.ts,
`borrowTransactions`). -/
structure BorrowTransaction where
  id : String
  bookId : String
  userId : String
  schoolId : Option String
  borrowedAt : Int
  dueDate : Int
  returnedAt : Option Int
  status : String
deriving DecidableEq

/-- `UpdateBook` (src/shared/schema.ts, `updateBookSchema =
insertBookSchema.partial()`): every insertable column optional; `none`
means the column is not touched by the update. -/
structure UpdateBook where
  title : Option String := none
  author : Option String := none
  isbn : Option String := none
  category : Option String := none
  status : Option String := none
  totalCopies : Option Int := none
  availableCopies : Option Int := none
  schoolId : Option (Option String) := none
deriving DecidableEq

/-- Applying a drizzle `.set(bookUpdate)` to one row: each provided column
is overwritten, the rest keep their value. -/
def applyUpdate (u : UpdateBook) (b : Book) : Book :=
  { b with
    title := u.title.getD b.title
    author := u.author.getD b.author
    isbn := u.isbn.getD b.isbn
    category := u.category.getD b.category
    status := u.status.getD b.status
    totalCopies := u.totalCopies.getD b.totalCopies
    availableCopies := u.availableCopies.getD b.availableCopies
    schoolId := u.schoolId.getD b.schoolId }

/-- The persistent store: the two tables the transaction core touches. -/
structure DB where
  books : List Book
  transactions : List BorrowTransaction
deriving DecidableEq

/-- `DbStorage.getBook`: `select … where eq(books.id, id) limit 1`. -/
def getBook (db : DB) (id : String) : Option Book :=
  db.books.find? (fun b => b.id == id)

/-- `DbStorage.updateBook`: `update books set bookUpdate where eq(books.id, id)`.
The handlers modelled here discard the returned row, so only the new store
is produced. -/
def updateBook (db : DB) (id : String) (u : UpdateBook) : DB :=
  { db with books := db.books.map (fun b => if b.id == id then applyUpdate u b else b) }

/-- `DbStorage.getTransactionById`: `select … where eq(id) limit 1`. -/
def getTransactionById (db : DB) (id : String) : Option BorrowTransaction :=
  db.transactions.find? (fun t => t.id == id)

/-- `DbStorage.getActiveTransactionsByUserId`: filters by user id and
`status = "active"` only — no school/tenant condition appears in the query. -/
def getActiveTransactionsByUserId (db : DB) (userId : String) : List BorrowTransaction :=
  db.transactions.filter (fun t => t.userId == userId && t.status == "active")

/-- `DbStorage.getOverdueTransactions`: active transactions with
`dueDate < NOW()`, additionally filtered by school when a scope is given. -/
def getOverdueTransactions (db : DB) (schoolId : Option String) (now : Int) : List BorrowTransaction :=
  match schoolId with
  | some sid =>
      db.transactions.filter
        (fun t => t.status == "active" && t.schoolId == some sid && decide (t.dueDate < now))
  | none =>
      db.transactions.filter
        (fun t => t.status == "active" && decide (t.dueDate < now))

/-- The payload accepted by `insertBorrowTransactionSchema`
(src/shared/schema.ts): `createInsertSchema(borrowTransactions)` minus
`id`, `borrowedAt`, `userId`.  Columns with a database default
(`schoolId`, `returnedAt`, `status`) are optional in the insert payload. -/
structure InsertBorrowTransaction where
  bookId : String
  schoolId : Option String
  dueDate : Int
  returnedAt : Option Int
  status : Option String
deriving DecidableEq

/-- `DbStorage.createTransaction`: inserts one row, the database filling the
defaulted columns (`id` from a fresh uuid, `borrowedAt` from `now()`,
`status` defaulting to `"active"`, `returnedAt` defaulting to null). -/
def createTransaction (db : DB) (t : InsertBorrowTransaction) (userId : String)
    (freshId : String) (now : Int) : DB × BorrowTransaction :=
  let row : BorrowTransaction :=
    { id := freshId
      bookId := t.bookId
      userId := userId
      schoolId := t.schoolId
      borrowedAt := now
      dueDate := t.dueDate
      returnedAt := t.returnedAt
      status := t.status.getD "active" }
  ({ db with transactions := row :: db.transactions }, row)

/-- The row transformation of `DbStorage.returnBook`'s update: set
`returnedAt = now, status = "returned"` on the row whose id matches. -/
def returnRowUpd (transactionId : String) (now : Int) (t : BorrowTransaction) :
    BorrowTransaction :=
  if t.id == transactionId then { t with returnedAt := some now, status := "returned" } else t

/-- `DbStorage.returnBook`: `update borrow_transactions set returnedAt = now,
status = "returned" where eq(id, transactionId) returning`; the handler keeps
`result[0]`, the first updated row. -/
def returnBook (db : DB) (transactionId : String) (now : Int) :
    DB × Option BorrowTransaction :=
  ({ db with transactions := db.transactions.map (returnRowUpd transactionId now) },
   (db.transactions.find? (fun t => t.id == transactionId)).map (returnRowUpd transactionId now))

/-- The verified actor context attached by `authenticateToken`
(src/server/auth.ts): the JWT payload fields the handlers read. -/
structure AuthUser where
  userId : String
  schoolId : Option String
  role : String
deriving DecidableEq

/-- An HTTP response as the handlers produce it: a success status code with
a JSON body, or an error status code with a `message` string. -/
inductive ApiResponse (α : Type) where
  | ok (code : Nat) (body : α)
  | err (code : Nat) (message : String)
deriving DecidableEq

/-- A raw request body for the borrow route, before zod validation; `none`
in a field means the field is absent from (or not coercible in) the JSON. -/
structure RawBorrowBody where
  bookId : Option String
  schoolId : Option String
  dueDate : Option Int
  returnedAt : Option Int
  status : Option String
deriving DecidableEq

/-- `insertBorrowTransactionSchema.parse`: succeeds when the required fields
are present and `dueDate` coerces to a date.  The schema applies no further
refinement — in particular no comparison of `dueDate` with the current
time. -/
def parseBorrowBody (body : RawBorrowBody) : Option InsertBorrowTransaction :=
  match body.bookId, body.dueDate with
  | some bid, some d =>
      some { bookId := bid
             schoolId := body.schoolId
             dueDate := d
             returnedAt := body.returnedAt
             status := body.status }
  | _, _ => none

/-- Outcome of the read/check phase of the borrow handler: an early
`res.status(code).json(message)` return, or the data needed by the write
phase. -/
inductive BorrowCheck where
  | rejected (code : Nat) (message : String)
  | proceed (schoolId : String) (validated : InsertBorrowTransaction) (book : Book)
deriving DecidableEq

/-- The read/check phase of `POST /api/transactions/borrow`
(src/unnamed/part_002): zod validation, the school guard, `getBook`, the
tenant check, the availability check, and the active-loan-limit check, in
source order.  Every read is a separate round-trip to the store. -/
def borrowChecks (db : DB) (user : AuthUser) (body : RawBorrowBody) : BorrowCheck :=
  match parseBorrowBody body with
  | none => .rejected 400 "Invalid borrow request body"
  | some validated =>
    match user.schoolId with
    | none => .rejected 400 "User must be associated with a school"
    | some schoolId =>
      match getBook db validated.bookId with
      | none => .rejected 404 "Book not found"
      | some book =>
        if book.schoolId ≠ some schoolId then
          .rejected 403 "This book belongs to a different school"
        else if book.availableCopies ≤ 0 then
          .rejected 400 "No copies available"
        else if (getActiveTransactionsByUserId db user.userId).length ≥ 5 then
          .rejected 400 "Maximum loan limit reached (5 books)"
        else .proceed schoolId validated book

/-- The write phase of `POST /api/transactions/borrow`: insert the
transaction, then decrement `availableCopies` using the `book` row read in
the check phase (a read-then-write pair, not a conditional update). -/
def borrowWrite (db : DB) (user : AuthUser) (schoolId : String)
    (validated : InsertBorrowTransaction) (book : Book) (now : Int) (freshId : String) :
    ApiResponse BorrowTransaction × DB :=
  let p := createTransaction db { validated with schoolId := some schoolId } user.userId freshId now
  let db2 := updateBook p.1 validated.bookId
    { status := some (if book.availableCopies - 1 == 0 then "borrowed" else book.status)
      availableCopies := some (book.availableCopies - 1) }
  (.ok 201 p.2, db2)

/-- `POST /api/transactions/borrow` as one request handled to completion
against the store (no interleaved writers): the check phase followed by the
write phase on the same snapshot. -/
def borrowHandler (db : DB) (user : AuthUser) (body : RawBorrowBody) (now : Int)
    (freshId : String) : ApiResponse BorrowTransaction × DB :=
  match borrowChecks db user body with
  | .rejected code message => (.err code message, db)
  | .proceed schoolId validated book => borrowWrite db user schoolId validated book now freshId

/-- `POST /api/transactions/:id/return` (src/unnamed/part_002): look up the
transaction, the tenant guard, the owner-or-admin guard, the already-returned
guard, then `returnBook` followed by an unconditional `availableCopies + 1`
update of the book when it still exists. -/
def returnHandler (db : DB) (user : AuthUser) (txId : String) (now : Int) :
    ApiResponse (Option BorrowTransaction) × DB :=
  match getTransactionById db txId with
  | none => (.err 404 "Transaction not found", db)
  | some tx =>
    if user.schoolId = none ∨ tx.schoolId ≠ user.schoolId then
      (.err 403 "This transaction belongs to a different school", db)
    else if ¬ (tx.userId == user.userId || (user.role == "admin" || user.role == "super_admin")) then
      (.err 403 "Not authorized", db)
    else if tx.status ≠ "active" then
      (.err 400 "Book already returned", db)
    else
      match getBook (returnBook db txId now).1 tx.bookId with
      | none => (.ok 200 (returnBook db txId now).2, (returnBook db txId now).1)
      | some book =>
        (.ok 200 (returnBook db txId now).2,
         updateBook (returnBook db txId now).1 tx.bookId
           { status := some "available"
             availableCopies := some (book.availableCopies + 1) })

/-- `GET /api/transactions/overdue`: gated by `requireRole("admin",
"super_admin")`, then a pure read of `getOverdueTransactions` scoped to
`req.user.schoolId || undefined`. -/
def overdueHandler (db : DB) (user : AuthUser) (now : Int) :
    ApiResponse (List BorrowTransaction) × DB :=
  if user.role == "admin" || user.role == "super_admin" then
    (.ok 200 (getOverdueTransactions db user.schoolId now), db)
  else
    (.err 403 "Insufficient permissions", db)

/-- One client request against the core: a borrow or a return. -/
inductive Op where
  | borrow (user : AuthUser) (body : RawBorrowBody) (now : Int) (freshId : String)
  | ret (user : AuthUser) (txId : String) (now : Int)

/-- The store after one request is handled to completion. -/
def step (db : DB) : Op → DB
  | .borrow u b n f => (borrowHandler db u b n f).2
  | .ret u t n => (returnHandler db u t n).2

/-- The store after a sequence of requests, each handled to completion. -/
def run (db : DB) : List Op → DB
  | [] => db
  | op :: ops => run (step db op) ops

/-- Number of rows of `borrow_transactions` that hold a copy of the given
book: `bookId` matches and `status = "active"`. -/
def activeLoanCount (db : DB) (bookId : String) : Nat :=
  db.transactions.countP (fun t => t.bookId == bookId && t.status == "active")

/-- The inventory invariant: book ids are unique (primary key), every
counter is non-negative, and the counter plus the book's active loans never
exceeds `totalCopies`. -/
def Inv (db : DB) : Prop :=
  (db.books.map Book.id).Nodup ∧
  ∀ b ∈ db.books, 0 ≤ b.availableCopies ∧
    b.availableCopies + activeLoanCount db b.id ≤ b.totalCopies

/-! List lemmas shared by the invariant and inversion proofs. -/

theorem countP_map_le {α : Type} (g : α → α) (p : α → Bool) (l : List α)
    (h : ∀ a, p (g a) = true → p a = true) :
    (l.map g).countP p ≤ l.countP p := by
  induction l with
  | nil => simp
  | cons a l ih =>
    simp only [List.map_cons, List.countP_cons]
    by_cases hp : p (g a) = true
    · rw [if_pos hp, if_pos (h a hp)]
      omega
    · rw [if_neg hp]
      by_cases hq : p a = true
      · rw [if_pos hq]; omega
      · rw [if_neg hq]; omega

theorem countP_map_lt {α : Type} (g : α → α) (p : α → Bool) (l : List α) (x : α)
    (hx : x ∈ l) (hpx : p x = true) (hgx : p (g x) = false)
    (h : ∀ a, p (g a) = true → p a = true) :
    (l.map g).countP p < l.countP p := by
  induction l with
  | nil => cases hx
  | cons a l ih =>
    simp only [List.map_cons, List.countP_cons]
    rcases List.mem_cons.mp hx with rfl | hmem
    · have h1 := countP_map_le g p l h
      rw [if_pos hpx, if_neg (by rw [hgx]; simp)]
      omega
    · have h1 := ih hmem
      by_cases hp : p (g a) = true
      · rw [if_pos hp, if_pos (h a hp)]; omega
      · rw [if_neg hp]
        by_cases hq : p a = true
        · rw [if_pos hq]; omega
        · rw [if_neg hq]; omega

theorem find?_map_comm {α : Type} (f : α → α) (p : α → Bool) (l : List α)
    (h : ∀ a, p (f a) = p a) :
    (l.map f).find? p = (l.find? p).map f := by
  induction l with
  | nil => rfl
  | cons a l ih =>
    by_cases hp : p a = true
    · rw [List.map_cons, List.find?_cons_of_pos _ (by rw [h]; exact hp),
        List.find?_cons_of_pos _ hp, Option.map_some']
    · rw [List.map_cons, List.find?_cons_of_neg _ (by rw [h]; simpa using hp),
        List.find?_cons_of_neg _ hp, ih]

/-! Structural lemmas about the storage operations. -/

theorem applyUpdate_id (u : UpdateBook) (b : Book) : (applyUpdate u b).id = b.id := rfl

theorem getBook_updateBook (db : DB) (uid bid : String) (u : UpdateBook) :
    getBook (updateBook db uid u) bid
      = (getBook db bid).map (fun b => if b.id == uid then applyUpdate u b else b) := by
  unfold getBook updateBook
  exact find?_map_comm _ _ _ (fun b => by
    show ((if b.id == uid then applyUpdate u b else b).id == bid) = (b.id == bid)
    split <;> rfl)

theorem ids_map_bookUpdate (l : List Book) (uid : String) (u : UpdateBook) :
    (l.map (fun b => if b.id == uid then applyUpdate u b else b)).map Book.id
      = l.map Book.id := by
  rw [List.map_map]
  apply List.map_congr_left
  intro b _
  show (if b.id == uid then applyUpdate u b else b).id = b.id
  split <;> rfl

/-- What a successful check phase of the borrow handler implies: the body
parsed, the actor is tenant-scoped, the book was found in the actor's
tenant with a positive counter, and the active-loan count is below 5. -/
theorem borrowChecks_proceed_inv {db : DB} {user : AuthUser} {body : RawBorrowBody}
    {sid : String} {v : InsertBorrowTransaction} {bk : Book}
    (h : borrowChecks db user body = .proceed sid v bk) :
    parseBorrowBody body = some v ∧ user.schoolId = some sid ∧
    getBook db v.bookId = some bk ∧ bk.schoolId = some sid ∧
    0 < bk.availableCopies ∧
    (getActiveTransactionsByUserId db user.userId).length < 5 := by
  unfold borrowChecks at h
  split at h
  · cases h
  · split at h
    · cases h
    · split at h
      · cases h
      · split at h
        · cases h
        · split at h
          · cases h
          · split at h
            · cases h
            · injection h with e1 e2 e3
              subst e1; subst e2; subst e3
              rename_i hten havail hlimit
              exact ⟨by assumption, by assumption, by assumption, not_not.mp hten,
                by omega, by omega⟩

theorem returnRowUpd_id (txId : String) (now : Int) (t : BorrowTransaction) :
    (returnRowUpd txId now t).id = t.id := by
  unfold returnRowUpd; split <;> rfl

theorem returnRowUpd_active_mono (txId : String) (now : Int) (x : String)
    (t : BorrowTransaction)
    (h : ((returnRowUpd txId now t).bookId == x
        && (returnRowUpd txId now t).status == "active") = true) :
    (t.bookId == x && t.status == "active") = true := by
  unfold returnRowUpd at h
  split at h
  · simp at h
  · exact h

/-- The inserted loan row of a successful borrow: the validated payload plus
the resolved school, the acting user, the fresh id and the current time. -/
def borrowRow (user : AuthUser) (sid : String) (v : InsertBorrowTransaction)
    (now : Int) (fid : String) : BorrowTransaction :=
  { id := fid, bookId := v.bookId, userId := user.userId, schoolId := some sid,
    borrowedAt := now, dueDate := v.dueDate, returnedAt := v.returnedAt,
    status := v.status.getD "active" }

/-- The partial book update a successful borrow issues, computed from the
book row read in the check phase. -/
def borrowBookUpd (bk : Book) : UpdateBook :=
  { status := some (if bk.availableCopies - 1 == 0 then "borrowed" else bk.status)
    availableCopies := some (bk.availableCopies - 1) }

theorem borrowHandler_eq_rejected {db : DB} {user : AuthUser} {body : RawBorrowBody}
    {c : Nat} {m : String} (now : Int) (fid : String)
    (h : borrowChecks db user body = .rejected c m) :
    borrowHandler db user body now fid = (.err c m, db) := by
  unfold borrowHandler; rw [h]

theorem borrowHandler_eq_proceed {db : DB} {user : AuthUser} {body : RawBorrowBody}
    {sid : String} {v : InsertBorrowTransaction} {bk : Book} (now : Int) (fid : String)
    (h : borrowChecks db user body = .proceed sid v bk) :
    borrowHandler db user body now fid
      = (.ok 201 (borrowRow user sid v now fid),
         updateBook { db with transactions := borrowRow user sid v now fid :: db.transactions }
           v.bookId (borrowBookUpd bk)) := by
  unfold borrowHandler; rw [h]; rfl

/-- Invariant preservation by a successful borrow's insert-and-decrement. -/
theorem inv_insert_update (db : DB) (row : BorrowTransaction) (bk : Book)
    (h : Inv db) (hbkmem : bk ∈ db.books) (hbkid : bk.id = row.bookId)
    (havail : 0 < bk.availableCopies) :
    Inv (updateBook { db with transactions := row :: db.transactions } row.bookId
      (borrowBookUpd bk)) := by
  constructor
  · show ((db.books.map fun b =>
        if b.id == row.bookId then applyUpdate (borrowBookUpd bk) b else b).map Book.id).Nodup
    rw [ids_map_bookUpdate]; exact h.1
  · intro b' hb'
    have hb'' : b' ∈ db.books.map
        (fun b => if b.id == row.bookId then applyUpdate (borrowBookUpd bk) b else b) := hb'
    rw [List.mem_map] at hb''
    obtain ⟨b, hbmem, hfb⟩ := hb''
    obtain ⟨hpos, hbound⟩ := h.2 b hbmem
    have hbound' : b.availableCopies
        + ↑(db.transactions.countP (fun t => t.bookId == b.id && t.status == "active"))
        ≤ b.totalCopies := hbound
    have hcnt : activeLoanCount
        (updateBook { db with transactions := row :: db.transactions } row.bookId
          (borrowBookUpd bk)) b'.id
        = db.transactions.countP (fun t => t.bookId == b'.id && t.status == "active")
          + (if (row.bookId == b'.id && row.status == "active") = true then 1 else 0) := by
      show (row :: db.transactions).countP _ = _
      rw [List.countP_cons]
    by_cases hid : (b.id == row.bookId) = true
    · have hbeq : b = bk :=
        List.inj_on_of_nodup_map h.1 hbmem hbkmem
          (by rw [beq_iff_eq] at hid; rw [hid, hbkid])
      have hfb' : b' = applyUpdate (borrowBookUpd bk) b := by rw [← hfb, if_pos hid]
      have hid' : b'.id = b.id := by rw [hfb']; rfl
      have hav : b'.availableCopies = bk.availableCopies - 1 := by rw [hfb']; rfl
      have htot : b'.totalCopies = b.totalCopies := by rw [hfb']; rfl
      subst hbeq
      constructor
      · rw [hav]; omega
      · rw [hav, htot, hcnt, hid']
        split <;> omega
    · have hfb' : b' = b := by rw [← hfb, if_neg hid]
      subst hfb'
      have hrow0 : (row.bookId == b'.id && row.status == "active") = false := by
        cases hrb : (row.bookId == b'.id) with
        | false => rw [Bool.false_and]
        | true =>
          exfalso
          apply hid
          rw [beq_iff_eq] at hrb ⊢
          exact hrb.symm
      refine ⟨hpos, ?_⟩
      rw [hcnt, hrow0]
      simpa using hbound'

/-- The partial book update a successful return issues, computed from the
book row read after `returnBook`. -/
def returnBookUpd (book : Book) : UpdateBook :=
  { status := some "available", availableCopies := some (book.availableCopies + 1) }

/-- Invariant preservation by `returnBook`'s status flip alone (the branch
in which the book row no longer exists). -/
theorem inv_return_mark (db : DB) (txId : String) (now : Int) (h : Inv db) :
    Inv { db with transactions := db.transactions.map (returnRowUpd txId now) } := by
  constructor
  · exact h.1
  · intro b hb
    obtain ⟨hpos, hbound⟩ := h.2 b hb
    refine ⟨hpos, ?_⟩
    have hbound' : b.availableCopies
        + ↑(db.transactions.countP (fun t => t.bookId == b.id && t.status == "active"))
        ≤ b.totalCopies := hbound
    have hle : ((db.transactions.map (returnRowUpd txId now)).countP
          (fun t => t.bookId == b.id && t.status == "active"))
        ≤ db.transactions.countP (fun t => t.bookId == b.id && t.status == "active") :=
      countP_map_le _ _ _ (returnRowUpd_active_mono txId now b.id)
    have hcnt : activeLoanCount
        { db with transactions := db.transactions.map (returnRowUpd txId now) } b.id
        = (db.transactions.map (returnRowUpd txId now)).countP
            (fun t => t.bookId == b.id && t.status == "active") := rfl
    rw [hcnt]
    omega

/-- Invariant preservation by a successful return's mark-and-increment. -/
theorem inv_return_update (db : DB) (txId : String) (now : Int)
    (tx : BorrowTransaction) (book : Book) (h : Inv db)
    (htxmem : tx ∈ db.transactions) (htxid : (tx.id == txId) = true)
    (hact : tx.status = "active")
    (hbook : getBook db tx.bookId = some book) :
    Inv (updateBook { db with transactions := db.transactions.map (returnRowUpd txId now) }
      tx.bookId (returnBookUpd book)) := by
  have hbookmem : book ∈ db.books := List.mem_of_find?_eq_some hbook
  have hbookid : book.id = tx.bookId := by
    have := List.find?_some hbook; rwa [beq_iff_eq] at this
  constructor
  · show ((db.books.map fun b =>
        if b.id == tx.bookId then applyUpdate (returnBookUpd book) b else b).map Book.id).Nodup
    rw [ids_map_bookUpdate]; exact h.1
  · intro b' hb'
    have hb'' : b' ∈ db.books.map
        (fun b => if b.id == tx.bookId then applyUpdate (returnBookUpd book) b else b) := hb'
    rw [List.mem_map] at hb''
    obtain ⟨b, hbmem, hfb⟩ := hb''
    obtain ⟨hpos, hbound⟩ := h.2 b hbmem
    have hbound' : b.availableCopies
        + ↑(db.transactions.countP (fun t => t.bookId == b.id && t.status == "active"))
        ≤ b.totalCopies := hbound
    have hmono : ((db.transactions.map (returnRowUpd txId now)).countP
          (fun t => t.bookId == b'.id && t.status == "active"))
        ≤ db.transactions.countP (fun t => t.bookId == b'.id && t.status == "active") :=
      countP_map_le _ _ _ (returnRowUpd_active_mono txId now b'.id)
    have hcnt : activeLoanCount
        (updateBook { db with transactions := db.transactions.map (returnRowUpd txId now) }
          tx.bookId (returnBookUpd book)) b'.id
        = (db.transactions.map (returnRowUpd txId now)).countP
            (fun t => t.bookId == b'.id && t.status == "active") := rfl
    by_cases hid : (b.id == tx.bookId) = true
    · have hbeq : b = book :=
        List.inj_on_of_nodup_map h.1 hbmem hbookmem
          (by rw [beq_iff_eq] at hid; rw [hid, hbookid])
      have hfb' : b' = applyUpdate (returnBookUpd book) b := by rw [← hfb, if_pos hid]
      have hid' : b'.id = b.id := by rw [hfb']; rfl
      have hav : b'.availableCopies = book.availableCopies + 1 := by rw [hfb']; rfl
      have htot : b'.totalCopies = b.totalCopies := by rw [hfb']; rfl
      subst hbeq
      have hlt : ((db.transactions.map (returnRowUpd txId now)).countP
            (fun t => t.bookId == b'.id && t.status == "active"))
          < db.transactions.countP (fun t => t.bookId == b'.id && t.status == "active") := by
        refine countP_map_lt _ _ _ tx htxmem ?_ ?_ (returnRowUpd_active_mono txId now b'.id)
        · rw [Bool.and_eq_true]
          refine ⟨?_, by rw [beq_iff_eq]; exact hact⟩
          rw [beq_iff_eq, hid', hbookid]
        · unfold returnRowUpd
          rw [if_pos htxid]
          simp
      refine ⟨by rw [hav]; omega, ?_⟩
      rw [hid'] at hcnt hlt
      rw [hav, htot, hid', hcnt]
      omega
    · have hfb' : b' = b := by rw [← hfb, if_neg hid]
      subst hfb'
      refine ⟨hpos, ?_⟩
      rw [hcnt]
      omega

/-- Invariant preservation by the full return handler. -/
theorem inv_returnHandler (db : DB) (user : AuthUser) (txId : String) (now : Int)
    (h : Inv db) : Inv (returnHandler db user txId now).2 := by
  unfold returnHandler
  split
  · exact h
  · rename_i tx htxeq
    split
    · exact h
    · split
      · exact h
      · split
        · exact h
        · rename_i hc3
          split
          · exact inv_return_mark db txId now h
          · rename_i book hbookeq
            have htxeq' : db.transactions.find? (fun t => t.id == txId) = some tx := htxeq
            have htid := List.find?_some htxeq'
            exact inv_return_update db txId now tx book h
              (List.mem_of_find?_eq_some htxeq')
              htid
              (not_not.mp hc3)
              hbookeq

/-- Invariant preservation by one handled request. -/
theorem inv_step (db : DB) (op : Op) (h : Inv db) : Inv (step db op) := by
  cases op with
  | borrow u b n f =>
    show Inv (borrowHandler db u b n f).2
    cases hc : borrowChecks db u b with
    | rejected c m => rw [borrowHandler_eq_rejected n f hc]; exact h
    | proceed sid v bk =>
      obtain ⟨hpar, hsid, hbook, hten, havail, hlim⟩ := borrowChecks_proceed_inv hc
      rw [borrowHandler_eq_proceed n f hc]
      have hbook' : db.books.find? (fun x => x.id == v.bookId) = some bk := hbook
      exact inv_insert_update db (borrowRow u sid v n f) bk h
        (List.mem_of_find?_eq_some hbook')
        (by have := List.find?_some hbook'; rwa [beq_iff_eq] at this)
        havail
  | ret u t n => exact inv_returnHandler db u t n h

/-- Invariant preservation along any request sequence. -/
theorem inv_run (db : DB) (ops : List Op) (h : Inv db) : Inv (run db ops) := by
  induction ops generalizing db with
  | nil => exact h
  | cons op ops ih => exact ih (step db op) (inv_step db op h)

/-! Concrete fixtures used by the evaluation theorems and witnesses. -/

/-- A catalog row with the given counters and tenant; display columns fixed. -/
def sampleBook (id : String) (total avail : Int) (sid : Option String) : Book :=
  { id := id, title := "T", author := "A", isbn := "I", category := "C",
    status := "available", totalCopies := total, availableCopies := avail, schoolId := sid }

/-- A plain member-role actor of the given tenant. -/
def memberUser (uid : String) (sid : Option String) : AuthUser :=
  { userId := uid, schoolId := sid, role := "user" }

/-- A minimal well-formed borrow request body. -/
def borrowBodyFor (bid : String) (due : Int) : RawBorrowBody :=
  { bookId := some bid, schoolId := none, dueDate := some due, returnedAt := none, status := none }

/-- An active loan row. -/
def activeLoanRow (id bid uid : String) (sid : Option String) (due : Int) : BorrowTransaction :=
  { id := id, bookId := bid, userId := uid, schoolId := sid, borrowedAt := 0,
    dueDate := due, returnedAt := none, status := "active" }

/-- Store with one book of a single copy and no loans: the scenario of the
required two-concurrent-borrows guarantee. -/
def raceDB : DB :=
  { books := [sampleBook "b1" 1 1 (some "school-a")], transactions := [] }

/-- The parsed payload of `borrowBodyFor "b1" 100`. -/
def raceInsert : InsertBorrowTransaction :=
  { bookId := "b1", schoolId := none, dueDate := 100, returnedAt := none, status := none }

/-- The store after the first interleaved request's write phase. -/
def raceAfterFirst : DB :=
  (borrowWrite raceDB (memberUser "u1" (some "school-a")) "school-a" raceInsert
    (sampleBook "b1" 1 1 (some "school-a")) 10 "t1").2

/-- The store after the second interleaved request's write phase, performed
with the book row it read before the first write committed. -/
def raceFinal : DB :=
  (borrowWrite raceAfterFirst (memberUser "u2" (some "school-a")) "school-a" raceInsert
    (sampleBook "b1" 1 1 (some "school-a")) 11 "t2").2

/-- Claim C1: the spec requires the availability check and the decrement to
be one atomic conditional write, so that two concurrent borrows of a book
with `availableCopies == 1` yield exactly one success.  The handler instead
issues `getBook` (read) and `updateBook` (write) as separate store
round-trips; interleaving the check phases of two requests before either
write phase makes both requests answer 201, leaving two active loans on a
book with a single copy — oversell. -/
theorem borrow_race_oversell :
    borrowChecks raceDB (memberUser "u1" (some "school-a")) (borrowBodyFor "b1" 100)
      = .proceed "school-a" raceInsert (sampleBook "b1" 1 1 (some "school-a")) ∧
    borrowChecks raceDB (memberUser "u2" (some "school-a")) (borrowBodyFor "b1" 100)
      = .proceed "school-a" raceInsert (sampleBook "b1" 1 1 (some "school-a")) ∧
    (borrowWrite raceDB (memberUser "u1" (some "school-a")) "school-a" raceInsert
        (sampleBook "b1" 1 1 (some "school-a")) 10 "t1").1
      = .ok 201 { id := "t1", bookId := "b1", userId := "u1", schoolId := some "school-a",
                  borrowedAt := 10, dueDate := 100, returnedAt := none, status := "active" } ∧
    (borrowWrite raceAfterFirst (memberUser "u2" (some "school-a")) "school-a" raceInsert
        (sampleBook "b1" 1 1 (some "school-a")) 11 "t2").1
      = .ok 201 { id := "t2", bookId := "b1", userId := "u2", schoolId := some "school-a",
                  borrowedAt := 11, dueDate := 100, returnedAt := none, status := "active" } ∧
    activeLoanCount raceFinal "b1" = 2 ∧
    (getBook raceFinal "b1").map Book.totalCopies = some 1 ∧
    (getBook raceFinal "b1").map Book.availableCopies = some 0 := by
  decide

/-- Store in the data-integrity-fault state the `InventoryOverflow` report is
specified for: the counter already at `totalCopies` while a loan is still
active. -/
def overflowDB : DB :=
  { books := [sampleBook "b1" 1 1 (some "school-a")],
    transactions := [activeLoanRow "t1" "b1" "u1" (some "school-a") 100] }

/-- Claim C3: the spec requires a Return that would push `availableCopies`
above `totalCopies` to fail with `Internal: InventoryOverflow`.  The handler
has no such check: at a store whose counter is already at `totalCopies`
with the loan still active, the return answers 200 and silently sets
`availableCopies = 2 > totalCopies = 1`. -/
theorem return_overflow_silently_exceeds :
    (returnHandler overflowDB (memberUser "u1" (some "school-a")) "t1" 50).1
      = .ok 200 (some { id := "t1", bookId := "b1", userId := "u1",
                        schoolId := some "school-a", borrowedAt := 0, dueDate := 100,
                        returnedAt := some 50, status := "returned" }) ∧
    (getBook (returnHandler overflowDB (memberUser "u1" (some "school-a")) "t1" 50).2 "b1").map
        Book.availableCopies = some 2 ∧
    (getBook (returnHandler overflowDB (memberUser "u1" (some "school-a")) "t1" 50).2 "b1").map
        Book.totalCopies = some 1 := by
  decide

/-- Store with copies available, for the past-due-date borrow. -/
def pastDueDB : DB :=
  { books := [sampleBook "b1" 3 2 (some "school-a")], transactions := [] }

/-- Claim C5: the spec requires a borrow whose due date is not strictly in
the future to be rejected by validation with no Loan created.
`insertBorrowTransactionSchema` only coerces `dueDate` and never compares it
with the current time: a request at time 100 with due date 50 parses, is
answered 201, and creates an active loan. -/
theorem borrow_accepts_past_due_date :
    parseBorrowBody (borrowBodyFor "b1" 50)
      = some { bookId := "b1", schoolId := none, dueDate := 50, returnedAt := none,
               status := none } ∧
    (50 : Int) < 100 ∧
    (borrowHandler pastDueDB (memberUser "u1" (some "school-a")) (borrowBodyFor "b1" 50)
        100 "t1").1
      = .ok 201 { id := "t1", bookId := "b1", userId := "u1", schoolId := some "school-a",
                  borrowedAt := 100, dueDate := 50, returnedAt := none, status := "active" } ∧
    activeLoanCount
      (borrowHandler pastDueDB (memberUser "u1" (some "school-a")) (borrowBodyFor "b1" 50)
        100 "t1").2 "b1" = 1 := by
  decide

/-- Store seen by the caller when the cross-tenant book does not exist. -/
def hiddenTenantDB : DB :=
  { books := [sampleBook "a1" 1 1 (some "school-a")], transactions := [] }

/-- The same store plus one book owned by another tenant. -/
def revealedTenantDB : DB :=
  { books := [sampleBook "a1" 1 1 (some "school-a"), sampleBook "b2" 1 1 (some "school-b")],
    transactions := [] }

/-- Claim C6, counterexample: two runs that differ only in whether a
cross-tenant book exists produce different error responses (404 "Book not
found" versus 403 "This book belongs to a different school"), so the
denied lookup is not reported identically to "not found" and cross-tenant
existence is revealed. -/
theorem cross_tenant_existence_revealed_cex :
    revealedTenantDB.books
      = hiddenTenantDB.books ++ [sampleBook "b2" 1 1 (some "school-b")] ∧
    revealedTenantDB.transactions = hiddenTenantDB.transactions ∧
    (sampleBook "b2" 1 1 (some "school-b")).schoolId ≠ some "school-a" ∧
    (borrowHandler hiddenTenantDB (memberUser "u1" (some "school-a"))
        (borrowBodyFor "b2" 100) 10 "t1").1
      = .err 404 "Book not found" ∧
    (borrowHandler revealedTenantDB (memberUser "u1" (some "school-a"))
        (borrowBodyFor "b2" 100) 10 "t1").1
      = .err 403 "This book belongs to a different school" ∧
    (borrowHandler hiddenTenantDB (memberUser "u1" (some "school-a"))
        (borrowBodyFor "b2" 100) 10 "t1").1
      ≠ (borrowHandler revealedTenantDB (memberUser "u1" (some "school-a"))
        (borrowBodyFor "b2" 100) 10 "t1").1 := by
  decide

/-- Store of the sequential borrow/return scenario: one book with two
copies, no loans. -/
def seqDB : DB :=
  { books := [sampleBook "b1" 2 2 (some "school-a")], transactions := [] }

/-- A borrow followed by the return of the created loan. -/
def seqOps : List Op :=
  [.borrow (memberUser "u1" (some "school-a")) (borrowBodyFor "b1" 30) 1 "t1",
   .ret (memberUser "u1" (some "school-a")) "t1" 2]

/-- Claim C2: from any store satisfying the inventory invariant, after any
sequence of borrow and return requests each handled to completion, every
book satisfies `0 ≤ availableCopies ≤ totalCopies`; the borrow decrement
and the return increment each preserve the invariant (`inv_step`). -/
theorem borrow_return_preserve_bounds (db : DB) (ops : List Op) (b : Book)
    (h : Inv db) (hb : b ∈ (run db ops).books) :
    0 ≤ b.availableCopies ∧ b.availableCopies ≤ b.totalCopies := by
  obtain ⟨-, h2⟩ := inv_run db ops h
  obtain ⟨hpos, hbound⟩ := h2 b hb
  exact ⟨hpos, by omega⟩

/-- Witness for C2 on the two-copy store and a borrow/return pair. -/
theorem borrow_return_preserve_bounds_witness :
    Inv seqDB ∧
    sampleBook "b1" 2 2 (some "school-a") ∈ (run seqDB seqOps).books ∧
    (0 ≤ (sampleBook "b1" 2 2 (some "school-a")).availableCopies ∧
      (sampleBook "b1" 2 2 (some "school-a")).availableCopies
        ≤ (sampleBook "b1" 2 2 (some "school-a")).totalCopies) :=
  ⟨by simp only [Inv]; decide, by decide,
   borrow_return_preserve_bounds seqDB seqOps (sampleBook "b1" 2 2 (some "school-a"))
     (by simp only [Inv]; decide) (by decide)⟩

/-- Claim C8: the admin-gated overdue endpoint answers 200 with exactly the
active loans whose due date is strictly before now, within the caller's
scope (all tenants for a school-less caller), and returns the store
unchanged. -/
theorem overdue_exact_filter_pure (db : DB) (user : AuthUser) (now : Int)
    (t : BorrowTransaction)
    (h : user.role = "admin" ∨ user.role = "super_admin") :
    overdueHandler db user now
      = (.ok 200 (getOverdueTransactions db user.schoolId now), db) ∧
    (t ∈ getOverdueTransactions db user.schoolId now ↔
      t ∈ db.transactions ∧ t.status = "active" ∧ t.dueDate < now ∧
        (user.schoolId = none ∨ t.schoolId = user.schoolId)) := by
  constructor
  · have hb : (user.role == "admin" || user.role == "super_admin") = true := by
      rcases h with h | h <;> simp [h]
    unfold overdueHandler
    rw [if_pos hb]
  · unfold getOverdueTransactions
    cases hs : user.schoolId with
    | none =>
      simp [List.mem_filter, Bool.and_eq_true, beq_iff_eq, decide_eq_true_eq, and_assoc]
    | some sid =>
      simp only [List.mem_filter, Bool.and_eq_true, beq_iff_eq, decide_eq_true_eq]
      constructor
      · rintro ⟨hm, ⟨h1, h2⟩, h3⟩
        exact ⟨hm, h1, h3, Or.inr h2⟩
      · rintro ⟨hm, h1, h2, h3⟩
        rcases h3 with h3 | h3
        · exact absurd h3 (by simp)
        · exact ⟨hm, ⟨h1, h3⟩, h2⟩

/-- The admin actor of the overdue fixture. -/
def overdueAdmin : AuthUser := { userId := "a1", schoolId := some "school-a", role := "admin" }

/-- Store with one overdue active loan in the admin's school. -/
def overdueStore : DB :=
  { books := [], transactions := [activeLoanRow "t1" "b1" "u1" (some "school-a") 5] }

/-- Witness for C8 at time 10 over a loan due at time 5. -/
theorem overdue_exact_filter_pure_witness :
    (overdueAdmin.role = "admin" ∨ overdueAdmin.role = "super_admin") ∧
    (overdueHandler overdueStore overdueAdmin 10
        = (.ok 200 (getOverdueTransactions overdueStore overdueAdmin.schoolId 10),
           overdueStore) ∧
      (activeLoanRow "t1" "b1" "u1" (some "school-a") 5
          ∈ getOverdueTransactions overdueStore overdueAdmin.schoolId 10 ↔
        activeLoanRow "t1" "b1" "u1" (some "school-a") 5 ∈ overdueStore.transactions ∧
        (activeLoanRow "t1" "b1" "u1" (some "school-a") 5).status = "active" ∧
        (activeLoanRow "t1" "b1" "u1" (some "school-a") 5).dueDate < 10 ∧
        (overdueAdmin.schoolId = none ∨
          (activeLoanRow "t1" "b1" "u1" (some "school-a") 5).schoolId
            = overdueAdmin.schoolId))) :=
  ⟨Or.inl rfl,
   overdue_exact_filter_pure overdueStore overdueAdmin 10
     (activeLoanRow "t1" "b1" "u1" (some "school-a") 5) (Or.inl rfl)⟩

/-- Claim C9: `getActiveTransactionsByUserId` filters only by user id and
active status — no tenant condition — so the borrow limit check counts the
member's active loans across all tenants; with 5 or more such loans the
borrow fails with the limit error even when the book-side checks pass. -/
theorem loan_limit_counts_all_tenants (db : DB) (user : AuthUser) (body : RawBorrowBody)
    (now : Int) (fid : String) (v : InsertBorrowTransaction) (sid : String) (bk : Book)
    (hp : parseBorrowBody body = some v)
    (hu : user.schoolId = some sid)
    (hb : getBook db v.bookId = some bk)
    (ht : bk.schoolId = some sid)
    (ha : 0 < bk.availableCopies)
    (hl : 5 ≤ (db.transactions.filter
        (fun t => t.userId == user.userId && t.status == "active")).length) :
    getActiveTransactionsByUserId db user.userId
      = db.transactions.filter (fun t => t.userId == user.userId && t.status == "active") ∧
    borrowHandler db user body now fid
      = (.err 400 "Maximum loan limit reached (5 books)", db) := by
  refine ⟨rfl, ?_⟩
  have hc : borrowChecks db user body
      = .rejected 400 "Maximum loan limit reached (5 books)" := by
    simp only [borrowChecks, hp, hu, hb]
    rw [if_neg (fun hne => hne ht), if_neg (by omega),
      if_pos (show (getActiveTransactionsByUserId db user.userId).length ≥ 5 from hl)]
  exact borrowHandler_eq_rejected now fid hc

/-- Store for the cross-tenant loan-limit witness: an available book at
school-a, five active loans of the same member all at school-b. -/
def limitDB : DB :=
  { books := [sampleBook "b9" 1 1 (some "school-a")],
    transactions :=
      [activeLoanRow "x1" "bb" "u9" (some "school-b") 100,
       activeLoanRow "x2" "bb" "u9" (some "school-b") 100,
       activeLoanRow "x3" "bb" "u9" (some "school-b") 100,
       activeLoanRow "x4" "bb" "u9" (some "school-b") 100,
       activeLoanRow "x5" "bb" "u9" (some "school-b") 100] }

/-- Witness for C9: all five counted loans belong to another tenant, yet the
borrow at school-a is rejected by the limit. -/
theorem loan_limit_counts_all_tenants_witness :
    5 ≤ (limitDB.transactions.filter
        (fun t => t.userId == "u9" && t.status == "active")).length ∧
    (limitDB.transactions.filter (fun t => t.schoolId == some "school-a")).length = 0 ∧
    (getActiveTransactionsByUserId limitDB "u9"
        = limitDB.transactions.filter (fun t => t.userId == "u9" && t.status == "active") ∧
      borrowHandler limitDB (memberUser "u9" (some "school-a")) (borrowBodyFor "b9" 100) 10 "t9"
        = (.err 400 "Maximum loan limit reached (5 books)", limitDB)) :=
  ⟨by decide, by decide,
   loan_limit_counts_all_tenants limitDB (memberUser "u9" (some "school-a"))
     (borrowBodyFor "b9" 100) 10 "t9"
     { bookId := "b9", schoolId := none, dueDate := 100, returnedAt := none, status := none }
     "school-a" (sampleBook "b9" 1 1 (some "school-a"))
     (by decide) rfl (by decide) rfl (by decide) (by decide)⟩

/-- Claim C10: returning an active in-tenant loan whose book row no longer
exists in the catalog still succeeds: 200 with the loan marked returned and
`returnedAt` set, and the books table — hence every inventory counter —
unchanged. -/
theorem return_succeeds_book_missing (db : DB) (user : AuthUser) (txId : String)
    (now : Int) (tx : BorrowTransaction) (sid : String)
    (htx : getTransactionById db txId = some tx)
    (hu : user.schoolId = some sid)
    (hts : tx.schoolId = some sid)
    (hown : (tx.userId == user.userId
        || (user.role == "admin" || user.role == "super_admin")) = true)
    (hact : tx.status = "active")
    (hbook : getBook db tx.bookId = none) :
    returnHandler db user txId now
      = (.ok 200 (some { tx with returnedAt := some now, status := "returned" }),
         { db with transactions := db.transactions.map (returnRowUpd txId now) }) ∧
    (returnHandler db user txId now).2.books = db.books := by
  have hcond1 : ¬ (user.schoolId = none ∨ tx.schoolId ≠ user.schoolId) := by
    rw [hu, hts]; simp
  have htxf : db.transactions.find? (fun t => t.id == txId) = some tx := htx
  have htxid := List.find?_some htxf
  have hmain : returnHandler db user txId now
      = (.ok 200 (some { tx with returnedAt := some now, status := "returned" }),
         { db with transactions := db.transactions.map (returnRowUpd txId now) }) := by
    simp only [returnHandler, htx]
    rw [if_neg hcond1, if_neg (not_not_intro hown), if_neg (fun hne => hne hact)]
    have hbook' : getBook (returnBook db txId now).1 tx.bookId = none := hbook
    rw [hbook']
    have hsnd : (returnBook db txId now).2
        = some { tx with returnedAt := some now, status := "returned" } := by
      show ((db.transactions.find? fun t => t.id == txId).map (returnRowUpd txId now)) = _
      rw [htxf, Option.map_some']
      unfold returnRowUpd
      rw [if_pos htxid]
    rw [hsnd]
    rfl
  exact ⟨hmain, by rw [hmain]⟩

/-- Store with an active loan whose book row is absent from the catalog. -/
def ghostDB : DB :=
  { books := [], transactions := [activeLoanRow "t1" "bgone" "u1" (some "school-a") 100] }

/-- Witness for C10 on the bookless store. -/
theorem return_succeeds_book_missing_witness :
    returnHandler ghostDB (memberUser "u1" (some "school-a")) "t1" 7
      = (.ok 200 (some { id := "t1", bookId := "bgone", userId := "u1",
                         schoolId := some "school-a", borrowedAt := 0, dueDate := 100,
                         returnedAt := some 7, status := "returned" }),
         { ghostDB with transactions := ghostDB.transactions.map (returnRowUpd "t1" 7) }) ∧
    (returnHandler ghostDB (memberUser "u1" (some "school-a")) "t1" 7).2.books
      = ghostDB.books :=
  return_succeeds_book_missing ghostDB (memberUser "u1" (some "school-a")) "t1" 7
    (activeLoanRow "t1" "bgone" "u1" (some "school-a") 100) "school-a"
    (by decide) rfl rfl (by decide) rfl (by decide)

/-- Freshness of a request's generated transaction id against the store
(what the database primary key guarantees for a generated uuid). -/
def opFresh (db : DB) : Op → Prop
  | .borrow _ _ _ fid => ∀ t ∈ db.transactions, t.id ≠ fid
  | .ret _ _ _ => True

/-- The return handler either leaves the transactions table unchanged or
applies the `returnBook` row update to it. -/
theorem returnHandler_snd_transactions (db : DB) (u : AuthUser) (txId : String) (now : Int) :
    (returnHandler db u txId now).2.transactions = db.transactions ∨
    (returnHandler db u txId now).2.transactions
      = db.transactions.map (returnRowUpd txId now) := by
  unfold returnHandler
  split
  · exact Or.inl rfl
  · split
    · exact Or.inl rfl
    · split
      · exact Or.inl rfl
      · split
        · exact Or.inl rfl
        · split
          · exact Or.inr rfl
          · exact Or.inr rfl

/-- Claim C4: a Return on a loan whose status is not `active` fails with 400
"Book already returned" and leaves the store unchanged; and a loan row that
is `returned` can never show as anything else after a further request: the
status transition is one-way. -/
theorem loan_status_one_way (db : DB) (user : AuthUser) (txId : String) (now : Int)
    (tx : BorrowTransaction) (sid : String) (op : Op) (t t' : BorrowTransaction)
    (htx : getTransactionById db txId = some tx)
    (hu : user.schoolId = some sid)
    (hts : tx.schoolId = some sid)
    (hown : (tx.userId == user.userId
        || (user.role == "admin" || user.role == "super_admin")) = true)
    (hnact : tx.status ≠ "active")
    (hnd : (db.transactions.map BorrowTransaction.id).Nodup)
    (hfresh : opFresh db op)
    (ht : t ∈ db.transactions)
    (hret : t.status = "returned")
    (ht' : t' ∈ (step db op).transactions)
    (hid : t'.id = t.id) :
    returnHandler db user txId now = (.err 400 "Book already returned", db) ∧
    t'.status = "returned" := by
  constructor
  · have hcond1 : ¬ (user.schoolId = none ∨ tx.schoolId ≠ user.schoolId) := by
      rw [hu, hts]; simp
    simp only [returnHandler, htx]
    rw [if_neg hcond1, if_neg (not_not_intro hown), if_pos hnact]
  · cases op with
    | borrow u b n f =>
      have hfr : ∀ s ∈ db.transactions, s.id ≠ f := hfresh
      cases hc : borrowChecks db u b with
      | rejected c m =>
        have he : (step db (.borrow u b n f)).transactions = db.transactions := by
          show (borrowHandler db u b n f).2.transactions = _
          rw [borrowHandler_eq_rejected n f hc]
        rw [he] at ht'
        have heq : t' = t := List.inj_on_of_nodup_map hnd ht' ht hid
        rw [heq]; exact hret
      | proceed sid2 v bk =>
        have he : (step db (.borrow u b n f)).transactions
            = borrowRow u sid2 v n f :: db.transactions := by
          show (borrowHandler db u b n f).2.transactions = _
          rw [borrowHandler_eq_proceed n f hc]
          rfl
        rw [he] at ht'
        rcases List.mem_cons.mp ht' with hrow | hm
        · exact absurd (show t.id = f from (hrow ▸ hid).symm) (hfr t ht)
        · have heq : t' = t := List.inj_on_of_nodup_map hnd hm ht hid
          rw [heq]; exact hret
    | ret u2 tid2 n2 =>
      have ht'' : t' ∈ (returnHandler db u2 tid2 n2).2.transactions := ht'
      rcases returnHandler_snd_transactions db u2 tid2 n2 with hcase | hcase
      · rw [hcase] at ht''
        have heq : t' = t := List.inj_on_of_nodup_map hnd ht'' ht hid
        rw [heq]; exact hret
      · rw [hcase] at ht''
        obtain ⟨s, hs, hgs⟩ := List.mem_map.mp ht''
        have hsid : s.id = t.id := by
          rw [← hgs, returnRowUpd_id] at hid
          exact hid
        have heq : s = t := List.inj_on_of_nodup_map hnd hs ht hsid
        subst heq
        rw [← hgs]
        unfold returnRowUpd
        split
        · rfl
        · exact hret

/-- An already-returned loan row. -/
def returnedLoanRow : BorrowTransaction :=
  { id := "t1", bookId := "b1", userId := "u1", schoolId := some "school-a",
    borrowedAt := 0, dueDate := 100, returnedAt := some 3, status := "returned" }

/-- Store holding only the already-returned loan. -/
def doneDB : DB := { books := [], transactions := [returnedLoanRow] }

/-- Witness for C4: a second return attempt on the returned loan is rejected
and the row stays returned after the request. -/
theorem loan_status_one_way_witness :
    returnHandler doneDB (memberUser "u1" (some "school-a")) "t1" 9
      = (.err 400 "Book already returned", doneDB) ∧
    returnedLoanRow.status = "returned" :=
  loan_status_one_way doneDB (memberUser "u1" (some "school-a")) "t1" 9
    returnedLoanRow "school-a" (.ret (memberUser "u1" (some "school-a")) "t1" 9)
    returnedLoanRow returnedLoanRow
    (by decide) rfl rfl (by decide) (by decide) (by decide) trivial
    (by decide) rfl (by decide) rfl

/-- Claim C6, amended: for a tenant-scoped caller, a denied cross-tenant
Borrow or Return lookup answers 403 with a school-mismatch message while a
missing record answers 404, and the two responses differ — so cross-tenant
existence is revealed rather than reported identically to "not found". -/
theorem cross_tenant_denied_distinguishable (db db' dbr dbr' : DB) (user : AuthUser)
    (sid : String) (body : RawBorrowBody) (v : InsertBorrowTransaction) (bk : Book)
    (txId : String) (tx : BorrowTransaction) (now : Int) (fid : String)
    (hu : user.schoolId = some sid)
    (hp : parseBorrowBody body = some v)
    (hb : getBook db v.bookId = some bk)
    (hbx : bk.schoolId ≠ some sid)
    (hb' : getBook db' v.bookId = none)
    (htx : getTransactionById dbr txId = some tx)
    (htxx : tx.schoolId ≠ some sid)
    (htx' : getTransactionById dbr' txId = none) :
    (borrowHandler db user body now fid).1
      = .err 403 "This book belongs to a different school" ∧
    (borrowHandler db' user body now fid).1 = .err 404 "Book not found" ∧
    (borrowHandler db user body now fid).1 ≠ (borrowHandler db' user body now fid).1 ∧
    (returnHandler dbr user txId now).1
      = .err 403 "This transaction belongs to a different school" ∧
    (returnHandler dbr' user txId now).1 = .err 404 "Transaction not found" ∧
    (returnHandler dbr user txId now).1 ≠ (returnHandler dbr' user txId now).1 := by
  have h1 : (borrowHandler db user body now fid).1
      = .err 403 "This book belongs to a different school" := by
    have hc : borrowChecks db user body
        = .rejected 403 "This book belongs to a different school" := by
      simp only [borrowChecks, hp, hu, hb]
      rw [if_pos hbx]
    rw [borrowHandler_eq_rejected now fid hc]
  have h2 : (borrowHandler db' user body now fid).1 = .err 404 "Book not found" := by
    have hc : borrowChecks db' user body = .rejected 404 "Book not found" := by
      simp only [borrowChecks, hp, hu, hb']
    rw [borrowHandler_eq_rejected now fid hc]
  have h4 : (returnHandler dbr user txId now).1
      = .err 403 "This transaction belongs to a different school" := by
    simp only [returnHandler, htx]
    rw [if_pos (Or.inr (by rw [hu]; exact htxx))]
  have h5 : (returnHandler dbr' user txId now).1 = .err 404 "Transaction not found" := by
    simp only [returnHandler, htx']
  refine ⟨h1, h2, ?_, h4, h5, ?_⟩
  · rw [h1, h2]; simp
  · rw [h4, h5]; simp

/-- Store of the return-side distinguishability witness: one active loan
owned by another tenant. -/
def crossTxDB : DB :=
  { books := [], transactions := [activeLoanRow "t9" "bx" "u2" (some "school-b") 100] }

/-- Empty store for the not-found side of the comparison. -/
def emptyDB : DB := { books := [], transactions := [] }

/-- Witness for the amended C6: concrete cross-tenant book and loan lookups
answer 403, the missing-record lookups answer 404, and the pairs differ. -/
theorem cross_tenant_denied_distinguishable_witness :
    (borrowHandler revealedTenantDB (memberUser "u1" (some "school-a"))
        (borrowBodyFor "b2" 100) 10 "t1").1
      = .err 403 "This book belongs to a different school" ∧
    (borrowHandler emptyDB (memberUser "u1" (some "school-a"))
        (borrowBodyFor "b2" 100) 10 "t1").1 = .err 404 "Book not found" ∧
    (borrowHandler revealedTenantDB (memberUser "u1" (some "school-a"))
        (borrowBodyFor "b2" 100) 10 "t1").1
      ≠ (borrowHandler emptyDB (memberUser "u1" (some "school-a"))
        (borrowBodyFor "b2" 100) 10 "t1").1 ∧
    (returnHandler crossTxDB (memberUser "u1" (some "school-a")) "t9" 10).1
      = .err 403 "This transaction belongs to a different school" ∧
    (returnHandler emptyDB (memberUser "u1" (some "school-a")) "t9" 10).1
      = .err 404 "Transaction not found" ∧
    (returnHandler crossTxDB (memberUser "u1" (some "school-a")) "t9" 10).1
      ≠ (returnHandler emptyDB (memberUser "u1" (some "school-a")) "t9" 10).1 :=
  cross_tenant_denied_distinguishable revealedTenantDB emptyDB crossTxDB emptyDB
    (memberUser "u1" (some "school-a")) "school-a" (borrowBodyFor "b2" 100)
    { bookId := "b2", schoolId := none, dueDate := 100, returnedAt := none, status := none }
    (sampleBook "b2" 1 1 (some "school-b")) "t9"
    (activeLoanRow "t9" "bx" "u2" (some "school-b") 100) 10 "t1"
    rfl (by decide) (by decide) (by decide) (by decide) (by decide) (by decide) (by decide)

/-- Claim C7: when a borrow succeeds (creating loan `tx` on store `db1`) and
the return of `tx` on `db1` succeeds, the book's `availableCopies` after the
pair equals its value before the borrow. -/
theorem borrow_return_counter_neutral (db : DB) (user user2 : AuthUser)
    (body : RawBorrowBody) (now : Int) (fid : String) (now2 : Int)
    (tx : BorrowTransaction) (db1 : DB) (r : Option BorrowTransaction)
    (hB : borrowHandler db user body now fid = (.ok 201 tx, db1))
    (hR : (returnHandler db1 user2 tx.id now2).1 = .ok 200 r) :
    (getBook (returnHandler db1 user2 tx.id now2).2 tx.bookId).map Book.availableCopies
      = (getBook db tx.bookId).map Book.availableCopies := by
  cases hc : borrowChecks db user body with
  | rejected c m =>
    rw [borrowHandler_eq_rejected now fid hc] at hB
    injection hB with h1 h2
    cases h1
  | proceed sid v bk =>
    rw [borrowHandler_eq_proceed now fid hc] at hB
    injection hB with h1 h2
    injection h1 with hcode hbody
    subst hbody
    subst h2
    obtain ⟨hpar, hsid, hbook, hten, havail, hlim⟩ := borrowChecks_proceed_inv hc
    have hbookf : db.books.find? (fun x => x.id == v.bookId) = some bk := hbook
    have hbkid0 := List.find?_some hbookf
    have hbkid : (bk.id == v.bookId) = true := hbkid0
    have htx1 : getTransactionById
        (updateBook { db with transactions := borrowRow user sid v now fid :: db.transactions }
          v.bookId (borrowBookUpd bk)) (borrowRow user sid v now fid).id
        = some (borrowRow user sid v now fid) := by
      show ((borrowRow user sid v now fid :: db.transactions).find?
          (fun t => t.id == (borrowRow user sid v now fid).id)) = _
      rw [List.find?_cons_of_pos _ (by simp)]
    have hbook1 : getBook
        (updateBook { db with transactions := borrowRow user sid v now fid :: db.transactions }
          v.bookId (borrowBookUpd bk)) (borrowRow user sid v now fid).bookId
        = some (applyUpdate (borrowBookUpd bk) bk) := by
      rw [getBook_updateBook]
      have hg : getBook { db with transactions := borrowRow user sid v now fid :: db.transactions }
          (borrowRow user sid v now fid).bookId = some bk := hbook
      rw [hg, Option.map_some', if_pos hbkid]
    by_cases c1 : user2.schoolId = none
        ∨ (borrowRow user sid v now fid).schoolId ≠ user2.schoolId
    · exfalso
      have he : (returnHandler
          (updateBook { db with transactions := borrowRow user sid v now fid :: db.transactions }
            v.bookId (borrowBookUpd bk)) user2 (borrowRow user sid v now fid).id now2).1
          = .err 403 "This transaction belongs to a different school" := by
        simp only [returnHandler, htx1]
        rw [if_pos c1]
      rw [he] at hR
      cases hR
    · by_cases c2 : ¬ ((borrowRow user sid v now fid).userId == user2.userId
          || (user2.role == "admin" || user2.role == "super_admin"))
      · exfalso
        have he : (returnHandler
            (updateBook { db with transactions := borrowRow user sid v now fid :: db.transactions }
              v.bookId (borrowBookUpd bk)) user2 (borrowRow user sid v now fid).id now2).1
            = .err 403 "Not authorized" := by
          simp only [returnHandler, htx1]
          rw [if_neg c1, if_pos c2]
        rw [he] at hR
        cases hR
      · by_cases c3 : (borrowRow user sid v now fid).status ≠ "active"
        · exfalso
          have he : (returnHandler
              (updateBook { db with transactions := borrowRow user sid v now fid :: db.transactions }
                v.bookId (borrowBookUpd bk)) user2 (borrowRow user sid v now fid).id now2).1
              = .err 400 "Book already returned" := by
            simp only [returnHandler, htx1]
            rw [if_neg c1, if_neg c2, if_pos c3]
          rw [he] at hR
          cases hR
        · have hfin : (returnHandler
              (updateBook { db with transactions := borrowRow user sid v now fid :: db.transactions }
                v.bookId (borrowBookUpd bk)) user2 (borrowRow user sid v now fid).id now2).2
              = updateBook
                  (returnBook
                    (updateBook
                      { db with transactions := borrowRow user sid v now fid :: db.transactions }
                      v.bookId (borrowBookUpd bk)) (borrowRow user sid v now fid).id now2).1
                  (borrowRow user sid v now fid).bookId
                  (returnBookUpd (applyUpdate (borrowBookUpd bk) bk)) := by
            simp only [returnHandler, htx1]
            rw [if_neg c1, if_neg c2, if_neg c3]
            have hbook2 : getBook
                (returnBook
                  (updateBook
                    { db with transactions := borrowRow user sid v now fid :: db.transactions }
                    v.bookId (borrowBookUpd bk)) (borrowRow user sid v now fid).id now2).1
                (borrowRow user sid v now fid).bookId
                = some (applyUpdate (borrowBookUpd bk) bk) := hbook1
            rw [hbook2]
            rfl
          rw [hfin, getBook_updateBook]
          have hbook3 : getBook
              (returnBook
                (updateBook
                  { db with transactions := borrowRow user sid v now fid :: db.transactions }
                  v.bookId (borrowBookUpd bk)) (borrowRow user sid v now fid).id now2).1
              (borrowRow user sid v now fid).bookId
              = some (applyUpdate (borrowBookUpd bk) bk) := hbook1
          rw [hbook3]
          have hrhs : getBook db (borrowRow user sid v now fid).bookId = some bk := hbook
          rw [hrhs]
          simp only [Option.map_some']
          have hbk'id : ((applyUpdate (borrowBookUpd bk) bk).id
              == (borrowRow user sid v now fid).bookId) = true := hbkid
          rw [if_pos hbk'id]
          have hval : (applyUpdate (returnBookUpd (applyUpdate (borrowBookUpd bk) bk))
              (applyUpdate (borrowBookUpd bk) bk)).availableCopies
              = bk.availableCopies - 1 + 1 := rfl
          rw [hval, Int.sub_add_cancel]

/-- Store of the counter-neutrality witness: one book with three copies, two
available. -/
def neutralDB : DB :=
  { books := [sampleBook "b7" 3 2 (some "school-a")], transactions := [] }

/-- The loan the witness borrow creates. -/
def neutralRow : BorrowTransaction :=
  borrowRow (memberUser "u7" (some "school-a")) "school-a"
    { bookId := "b7", schoolId := none, dueDate := 50, returnedAt := none, status := none }
    10 "t7"

/-- The store after the witness borrow. -/
def neutralDB1 : DB :=
  (borrowHandler neutralDB (memberUser "u7" (some "school-a"))
    (borrowBodyFor "b7" 50) 10 "t7").2

/-- Witness for C7: after borrowing and returning the same loan, the book's
counter is back to its original value. -/
theorem borrow_return_counter_neutral_witness :
    (getBook (returnHandler neutralDB1 (memberUser "u7" (some "school-a"))
        neutralRow.id 20).2 neutralRow.bookId).map Book.availableCopies
      = (getBook neutralDB neutralRow.bookId).map Book.availableCopies :=
  borrow_return_counter_neutral neutralDB (memberUser "u7" (some "school-a"))
    (memberUser "u7" (some "school-a")) (borrowBodyFor "b7" 50) 10 "t7" 20
    neutralRow neutralDB1
    (some { neutralRow with returnedAt := some 20, status := "returned" })
    (by decide) (by decide)

end LibraryManager
